import Mathlib

/-!
# Verification of the pharmacy ordering workflow

A shallow embedding of the server-side business logic of the pharmacy
application: the relational store is a record of lists of rows, each handler
becomes a function from the store (plus its arguments) to a new store and a
result, and each thrown error becomes a constructor of an error type.

Embedded handlers (each definition carries a pointer to its source):
- `createOrderRun`   from `src/server/src/handlers/orders.ts` (`createOrder`)
- `addToCartRun`     from `src/server/src/handlers/cart.ts` (`addToCart`)
- `updateProductRun` from `src/server/src/handlers/products.ts` (`updateProduct`)
- `getProducts`, `getProductById`, `searchProducts`
                     from `src/server/src/handlers/products.ts`
- `getCustomerReport` from the reports handler (`getCustomerReport`)

Modelling conventions:
- `numeric(10,2)` money columns are rationals (`ℚ`); the float conversion at
  the API boundary is outside the model.
- `timestamp` columns are integers (`Int`); the report takes its two date
  cutoffs (`startOfMonth`, `threeMonthsAgo`) as parameters.
- `serial` primary keys are allocated as one more than the largest id present.
- Quantities are `Nat` (the input schema enforces nonnegative integers);
  `stock_quantity` is `Int` as in the schema, so that statements about it
  going negative are expressible.
-/

namespace Pharma

/-- Status of an uploaded prescription (`prescriptionStatusEnum`). -/
inductive PrescrStatus
  | pending
  | verified
  | rejected
deriving DecidableEq

/-- Status of an order (`orderStatusEnum`). -/
inductive OrderStatus
  | pending
  | confirmed
  | processing
  | shipped
  | delivered
  | cancelled
deriving DecidableEq

/-- Role of a user (`userRoleEnum`). -/
inductive Role
  | customer
  | pharmacist
  | admin
deriving DecidableEq

/-- A row of `productsTable` (the columns the embedded handlers read). -/
structure Product where
  id : Nat
  name : String
  manufacturer : String
  price : ℚ
  stock_quantity : Int
  category_id : Nat
  requires_prescription : Bool
  is_active : Bool
  created_at : Int
deriving DecidableEq

/-- A row of `usersTable` (the columns the embedded handlers read). -/
structure UserRec where
  id : Nat
  role : Role
  created_at : Int
deriving DecidableEq

/-- A row of `prescriptionsTable` (the columns the embedded handlers read). -/
structure Prescription where
  id : Nat
  user_id : Nat
  status : PrescrStatus
deriving DecidableEq

/-- A row of `cartItemsTable`. -/
structure CartItem where
  id : Nat
  user_id : Nat
  product_id : Nat
  quantity : Nat
  prescription_id : Option Nat
deriving DecidableEq

/-- A row of `ordersTable`. -/
structure Order where
  id : Nat
  user_id : Nat
  total_amount : ℚ
  status : OrderStatus
  payment_method : String
  delivery_method : String
  delivery_address : String
  delivery_phone : String
  notes : Option String
  created_at : Int
deriving DecidableEq

/-- A row of `orderItemsTable`. -/
structure OrderItem where
  order_id : Nat
  product_id : Nat
  quantity : Nat
  unit_price : ℚ
  prescription_id : Option Nat
deriving DecidableEq

/-- The relational store: one list of rows per table touched by the embedded
handlers (categories are kept as a list of ids, the only thing read of them). -/
structure DB where
  users : List UserRec
  categories : List Nat
  products : List Product
  prescriptions : List Prescription
  cartItems : List CartItem
  orders : List Order
  orderItems : List OrderItem
deriving DecidableEq

/-- Input of `addToCart` (`addToCartInputSchema`). -/
structure AddToCartInput where
  product_id : Nat
  quantity : Nat
  prescription_id : Option Nat
deriving DecidableEq

/-- Input of `createOrder` (`createOrderInputSchema`), delivery data only. -/
structure CreateOrderInput where
  payment_method : String
  delivery_method : String
  delivery_address : String
  delivery_phone : String
  notes : Option String
deriving DecidableEq

/-- The errors `createOrder` throws, one constructor per message:
`Cart is empty`, `Insufficient stock for ...`, `Prescription required for ...`,
`Invalid or unverified prescription for ...`. -/
inductive OrderError
  | emptyCart
  | insufficientStock
  | prescriptionRequired
  | invalidPrescription
deriving DecidableEq

/-- The errors `addToCart` throws, one constructor per message. -/
inductive CartError
  | userNotFound
  | productNotFound
  | prescriptionRequired
  | invalidPrescription
  | insufficientStock
deriving DecidableEq

/-- The errors `updateProduct` throws. -/
inductive ProductError
  | productNotFound
  | categoryNotFound
deriving DecidableEq

/-- Serial id allocation: one more than the largest id already present. -/
def freshId (ids : List Nat) : Nat :=
  ids.foldr (fun x m => max x m) 0 + 1

/-- The query at the top of `createOrder` (orders.ts line 95): the user's cart
rows inner-joined with their product rows. -/
def joinedCart (db : DB) (userId : Nat) : List (CartItem × Product) :=
  (db.cartItems.filter (fun c => decide (c.user_id = userId))).filterMap
    (fun c => (db.products.find? (fun p => decide (p.id = c.product_id))).map
      (fun p => (c, p)))

/-- The `productQuantities` aggregation of `createOrder` (orders.ts lines
114-119): total requested quantity of one product over all cart lines. -/
def aggQty (items : List (CartItem × Product)) (pid : Nat) : Nat :=
  ((items.filter (fun x => decide (x.1.product_id = pid))).map
    (fun x => x.1.quantity)).sum

/-- The prescription query inside the validation loop of `createOrder`
(orders.ts lines 136-148): a row with this id, owned by this user, with
status `verified`, must exist. -/
def prescriptionValid (db : DB) (userId : Nat) (rid : Nat) : Bool :=
  db.prescriptions.any (fun pr =>
    decide (pr.id = rid) && decide (pr.user_id = userId) &&
    decide (pr.status = PrescrStatus.verified))

/-- One iteration of the validation loop of `createOrder` (orders.ts lines
122-150): aggregated stock check, then prescription-required check, then
prescription validity check; the first failing check decides the error. -/
def checkItem (db : DB) (userId : Nat) (items : List (CartItem × Product))
    (x : CartItem × Product) : Except OrderError Unit :=
  if (aggQty items x.1.product_id : Int) > x.2.stock_quantity then
    .error .insufficientStock
  else if x.2.requires_prescription && x.1.prescription_id.isNone then
    .error .prescriptionRequired
  else
    match x.1.prescription_id with
    | some rid =>
      if prescriptionValid db userId rid then .ok () else .error .invalidPrescription
    | none => .ok ()

/-- The validation loop of `createOrder` over the joined cart rows in order;
the first failing row's error is thrown. -/
def validateItems (db : DB) (userId : Nat) (items : List (CartItem × Product)) :
    List (CartItem × Product) → Except OrderError Unit
  | [] => .ok ()
  | x :: xs =>
    match checkItem db userId items x with
    | .ok _ => validateItems db userId items xs
    | .error e => .error e

/-- The `totalAmount` reduction of `createOrder` (orders.ts lines 153-155):
left fold of `price * quantity` over the joined cart rows. -/
def cartTotal (items : List (CartItem × Product)) : ℚ :=
  items.foldl (fun s x => s + x.2.price * (x.1.quantity : ℚ)) 0

/-- The order row `createOrder` inserts on success (orders.ts lines 158-169);
`status` takes the column default `pending`. -/
def mkOrder (db : DB) (userId : Nat) (input : CreateOrderInput) (now : Int) : Order :=
  { id := freshId (db.orders.map (fun o => o.id))
    user_id := userId
    total_amount := cartTotal (joinedCart db userId)
    status := .pending
    payment_method := input.payment_method
    delivery_method := input.delivery_method
    delivery_address := input.delivery_address
    delivery_phone := input.delivery_phone
    notes := input.notes
    created_at := now }

/-- One order line per cart line (orders.ts lines 174-180): quantity from the
cart line, `unit_price` snapshotted from the joined product row. -/
def mkOrderItem (oid : Nat) (x : CartItem × Product) : OrderItem :=
  { order_id := oid
    product_id := x.1.product_id
    quantity := x.1.quantity
    unit_price := x.2.price
    prescription_id := x.1.prescription_id }

/-- Per-row net effect of the stock-update loop of `createOrder` (orders.ts
lines 187-193): the loop runs once per distinct product id and sets that
product's stock to the joined row's stock minus the aggregated quantity, so a
row whose id has a cart line gets exactly one update and every other row is
untouched. -/
def decrementStocks (items : List (CartItem × Product)) (products : List Product) :
    List Product :=
  products.map (fun p =>
    match items.find? (fun x => decide (x.1.product_id = p.id)) with
    | some x =>
      { p with stock_quantity := x.2.stock_quantity - (aggQty items x.1.product_id : Int) }
    | none => p)

/-- The store after all four write statements of `createOrder` succeeded:
order inserted, order lines inserted, stocks decremented, the user's cart rows
deleted (orders.ts lines 158-198). -/
def orderSuccessState (db : DB) (userId : Nat) (input : CreateOrderInput) (now : Int) : DB :=
  { db with
    orders := db.orders ++ [mkOrder db userId input now]
    orderItems := db.orderItems ++
      (joinedCart db userId).map (mkOrderItem (mkOrder db userId input now).id)
    products := decrementStocks (joinedCart db userId) db.products
    cartItems := db.cartItems.filter (fun c => decide (c.user_id ≠ userId)) }

/-- The `createOrder` handler (orders.ts lines 92-208): final store plus
result.  The read phase (join, empty-cart check, aggregation, validation loop)
precedes every write; on a validation failure the store is returned unchanged
with the thrown error, otherwise the four writes are applied. -/
def createOrderRun (db : DB) (userId : Nat) (input : CreateOrderInput) (now : Int) :
    DB × Except OrderError Order :=
  if (joinedCart db userId).isEmpty then
    (db, .error .emptyCart)
  else
    match validateItems db userId (joinedCart db userId) (joinedCart db userId) with
    | .error e => (db, .error e)
    | .ok _ => (orderSuccessState db userId input now, .ok (mkOrder db userId input now))

/-- The store `createOrder` leaves behind when only the first `n` of its four
write statements succeed and the next one throws: the handler opens no
transaction and its catch block rethrows without compensation (orders.ts lines
204-207), so the writes already executed stay applied.  `n = 0` is a failure
before any write (in particular any validation failure); `n ≥ 4` is full
success. -/
def createOrderAfterWrites (db : DB) (userId : Nat) (input : CreateOrderInput)
    (now : Int) (n : Nat) : DB :=
  if (joinedCart db userId).isEmpty then db
  else
    match validateItems db userId (joinedCart db userId) (joinedCart db userId) with
    | .error _ => db
    | .ok _ =>
      match n with
      | 0 => db
      | 1 => { db with orders := db.orders ++ [mkOrder db userId input now] }
      | 2 => { db with
          orders := db.orders ++ [mkOrder db userId input now]
          orderItems := db.orderItems ++
            (joinedCart db userId).map (mkOrderItem (mkOrder db userId input now).id) }
      | 3 => { db with
          orders := db.orders ++ [mkOrder db userId input now]
          orderItems := db.orderItems ++
            (joinedCart db userId).map (mkOrderItem (mkOrder db userId input now).id)
          products := decrementStocks (joinedCart db userId) db.products }
      | _ => orderSuccessState db userId input now

/-- The fresh cart row inserted by `addToCart` when the user has no line for
the product yet (cart.ts lines 103-111). -/
def newCartItem (db : DB) (userId : Nat) (input : AddToCartInput) : CartItem :=
  { id := freshId (db.cartItems.map (fun c => c.id))
    user_id := userId
    product_id := input.product_id
    quantity := input.quantity
    prescription_id := input.prescription_id }

/-- The `addToCart` handler (cart.ts lines 25-119): user-existence check,
product lookup, prescription-required check, prescription ownership check,
point-in-time stock check, then either an increment of the existing
`(user, product)` cart row (with a second stock check against the combined
quantity) or an insert of a fresh row.  The product's `is_active` flag is
never read. -/
def addToCartRun (db : DB) (userId : Nat) (input : AddToCartInput) :
    DB × Except CartError CartItem :=
  if !(db.users.any (fun u => decide (u.id = userId))) then
    (db, .error .userNotFound)
  else
    match db.products.find? (fun p => decide (p.id = input.product_id)) with
    | none => (db, .error .productNotFound)
    | some productData =>
      if productData.requires_prescription && input.prescription_id.isNone then
        (db, .error .prescriptionRequired)
      else if (match input.prescription_id with
               | some rid => !(db.prescriptions.any (fun pr =>
                   decide (pr.id = rid) && decide (pr.user_id = userId)))
               | none => false) then
        (db, .error .invalidPrescription)
      else if productData.stock_quantity < (input.quantity : Int) then
        (db, .error .insufficientStock)
      else
        match db.cartItems.find? (fun c =>
            decide (c.user_id = userId) && decide (c.product_id = input.product_id)) with
        | some existing =>
          if productData.stock_quantity < ((existing.quantity + input.quantity : Nat) : Int) then
            (db, .error .insufficientStock)
          else
            ({ db with cartItems := db.cartItems.map (fun c =>
                 if c.id = existing.id then
                   { c with quantity := existing.quantity + input.quantity }
                 else c) },
             .ok { existing with quantity := existing.quantity + input.quantity })
        | none =>
          ({ db with cartItems := db.cartItems ++ [newCartItem db userId input] },
           .ok (newCartItem db userId input))

/-- A store-mutating API call of the cart/order workflow. -/
inductive StoreOp
  | addCart (userId : Nat) (input : AddToCartInput)
  | placeOrder (userId : Nat) (input : CreateOrderInput) (now : Int)

/-- The store after one API call; a failed call leaves the store unchanged
(every write of both handlers happens after all of its checks passed). -/
def applyOp (db : DB) : StoreOp → DB
  | .addCart u i => (addToCartRun db u i).1
  | .placeOrder u i n => (createOrderRun db u i n).1

/-- The store after a sequence of API calls. -/
def runOps (db : DB) (ops : List StoreOp) : DB :=
  ops.foldl applyOp db

/-- Number of cart rows of one `(user, product)` pair. -/
def pairCount (db : DB) (userId pid : Nat) : Nat :=
  db.cartItems.countP (fun c => decide (c.user_id = userId) && decide (c.product_id = pid))

/-- Input of `updateProduct` (`updateProductInputSchema`): the id plus the
optional fields the embedding tracks; an absent field leaves the column
unchanged. -/
structure UpdateProductInput where
  id : Nat
  name : Option String
  manufacturer : Option String
  price : Option ℚ
  stock_quantity : Option Int
  category_id : Option Nat
  requires_prescription : Option Bool
  is_active : Option Bool
deriving DecidableEq

/-- The `updateValues` object of `updateProduct` (products.ts lines 177-194)
applied to a product row: only the fields present in the input are written. -/
def applyProductUpdate (input : UpdateProductInput) (p : Product) : Product :=
  { p with
    name := input.name.getD p.name
    manufacturer := input.manufacturer.getD p.manufacturer
    price := input.price.getD p.price
    stock_quantity := input.stock_quantity.getD p.stock_quantity
    category_id := input.category_id.getD p.category_id
    requires_prescription := input.requires_prescription.getD p.requires_prescription
    is_active := input.is_active.getD p.is_active }

/-- The `updateProduct` handler (products.ts lines 152-211): existence check,
optional category check, then an update of the single matching product row.
No other table is touched. -/
def updateProductRun (db : DB) (input : UpdateProductInput) :
    DB × Except ProductError Product :=
  match db.products.find? (fun p => decide (p.id = input.id)) with
  | none => (db, .error .productNotFound)
  | some p0 =>
    if (match input.category_id with
        | some cid => !(db.categories.any (fun c => decide (c = cid)))
        | none => false) then
      (db, .error .categoryNotFound)
    else
      ({ db with products := db.products.map (fun p =>
           if p.id = input.id then applyProductUpdate input p else p) },
       .ok (applyProductUpdate input p0))

/-- Insertion step of the `ORDER BY created_at DESC` sort. -/
def insertByCreatedDesc (p : Product) : List Product → List Product
  | [] => [p]
  | q :: qs =>
    if q.created_at ≤ p.created_at then p :: q :: qs
    else q :: insertByCreatedDesc p qs

/-- The `ORDER BY created_at DESC` clause of the product read paths, realised
as an insertion sort. -/
def sortByCreatedDesc (l : List Product) : List Product :=
  l.foldr insertByCreatedDesc []

/-- The `getProducts` handler (products.ts lines 7-23): active products only,
newest first. -/
def getProducts (db : DB) : List Product :=
  sortByCreatedDesc (db.products.filter (fun p => p.is_active))

/-- The `getProductById` handler (products.ts lines 25-48): the row must match
the id and be active, otherwise `null`. -/
def getProductById (db : DB) (id : Nat) : Option Product :=
  db.products.find? (fun p => decide (p.id = id) && p.is_active)

/-- Leading-match helper of the case-insensitive substring test. -/
def charsLead : List Char → List Char → Bool
  | [], _ => true
  | _ :: _, [] => false
  | c :: cs, d :: ds => c == d && charsLead cs ds

/-- Occurrence helper of the case-insensitive substring test. -/
def charsHave (pat : List Char) : List Char → Bool
  | [] => charsLead pat []
  | d :: ds => charsLead pat (d :: ds) || charsHave pat ds

/-- The `ilike '%pat%'` operator: case-insensitive substring containment. -/
def ilikeHas (s pat : String) : Bool :=
  charsHave pat.toLower.toList s.toLower.toList

/-- Input of `searchProducts` (`searchProductsInputSchema`). -/
structure SearchInput where
  query : Option String
  category_id : Option Nat
  requires_prescription : Option Bool
  min_price : Option ℚ
  max_price : Option ℚ
  manufacturer : Option String
  limit : Nat
  offset : Nat
deriving DecidableEq

/-- The optional filter conditions of `searchProducts` (products.ts lines
55-77), AND-combined; an absent filter imposes nothing. -/
def searchConds (input : SearchInput) (p : Product) : Bool :=
  (match input.query with
   | some q => ilikeHas p.name q
   | none => true) &&
  (match input.category_id with
   | some cid => decide (p.category_id = cid)
   | none => true) &&
  (match input.requires_prescription with
   | some b => p.requires_prescription == b
   | none => true) &&
  (match input.min_price with
   | some m => decide (m ≤ p.price)
   | none => true) &&
  (match input.max_price with
   | some m => decide (p.price ≤ m)
   | none => true) &&
  (match input.manufacturer with
   | some m => ilikeHas p.manufacturer m
   | none => true)

/-- The full WHERE clause of `searchProducts`: the conditions array is seeded
with `is_active = true` (products.ts line 53) before the optional filters. -/
def searchWhere (input : SearchInput) (p : Product) : Bool :=
  p.is_active && searchConds input p

/-- The `searchProducts` handler (products.ts lines 50-108): one page of the
matching rows (newest first, offset then limit) and the total count of the
same WHERE clause, computed by a second query. -/
def searchProducts (db : DB) (input : SearchInput) : List Product × Nat :=
  (((sortByCreatedDesc (db.products.filter (searchWhere input))).drop input.offset).take
     input.limit,
   (db.products.filter (searchWhere input)).length)

/-- DISTINCT over a column of ids, keeping first occurrences. -/
def dedupKeep (seen : List Nat) : List Nat → List Nat
  | [] => []
  | x :: xs => if x ∈ seen then dedupKeep seen xs else x :: dedupKeep (x :: seen) xs

/-- Result row of `getCustomerReport`. -/
structure CustomerReport where
  total_customers : Nat
  new_customers_this_month : Nat
  active_customers : Nat
  customer_retention_rate : ℚ
deriving DecidableEq

/-- JavaScript `Math.round`: floor after adding one half. -/
def jsRound (q : ℚ) : ℤ := ⌊q + 1/2⌋

/-- The `totalCustomers` query of `getCustomerReport`: users with role
`customer`. -/
def totalCustomerCount (db : DB) : Nat :=
  (db.users.filter (fun u => decide (u.role = Role.customer))).length

/-- The `newCustomersThisMonth` query of `getCustomerReport`: customer-role
users created since the start of the month. -/
def newCustomerCount (db : DB) (startOfMonth : Int) : Nat :=
  (db.users.filter (fun u =>
    decide (u.role = Role.customer) && decide (startOfMonth ≤ u.created_at))).length

/-- The `activeCustomers` query of `getCustomerReport`: DISTINCT user ids over
the orders of the trailing three months — with no role filter and no join back
to the users table. -/
def activeCustomerCount (db : DB) (threeMonthsAgo : Int) : Nat :=
  (dedupKeep []
    ((db.orders.filter (fun o => decide (threeMonthsAgo ≤ o.created_at))).map
      (fun o => o.user_id))).length

/-- The `retentionRate` expression of `getCustomerReport`: active over total
times 100, or 0 when there are no customers. -/
def retentionRate (db : DB) (threeMonthsAgo : Int) : ℚ :=
  if 0 < totalCustomerCount db then
    ((activeCustomerCount db threeMonthsAgo : ℚ) / (totalCustomerCount db : ℚ)) * 100
  else 0

/-- The `getCustomerReport` handler (reports handler lines 761-820); the rate
is rounded to two decimals the JavaScript way, `Math.round(rate * 100) / 100`. -/
def getCustomerReport (db : DB) (startOfMonth threeMonthsAgo : Int) : CustomerReport :=
  { total_customers := totalCustomerCount db
    new_customers_this_month := newCustomerCount db startOfMonth
    active_customers := activeCustomerCount db threeMonthsAgo
    customer_retention_rate :=
      (jsRound (retentionRate db threeMonthsAgo * 100) : ℚ) / 100 }

/-- Modelled from the spec: the retention rate as the claim states it, the
percentage of customer-role users who placed at least one order in the
trailing three-month window, rounded to two decimals.  Used only to compare
the claimed formula with `getCustomerReport`. -/
def specRetentionRate (db : DB) (threeMonthsAgo : Int) : ℚ :=
  if 0 < (db.users.filter (fun u => decide (u.role = Role.customer))).length then
    (jsRound ((((db.users.filter (fun u =>
        decide (u.role = Role.customer) &&
        db.orders.any (fun o =>
          decide (o.user_id = u.id) && decide (threeMonthsAgo ≤ o.created_at)))).length : ℚ) /
      ((db.users.filter (fun u => decide (u.role = Role.customer))).length : ℚ)) * 100 * 100) : ℚ)
      / 100
  else 0

/-! ## Concrete fixtures

Small concrete stores and inputs on which the theorems below are instantiated. -/

/-- A delivery-information input used by the concrete order scenarios. -/
def fxOrderInput : CreateOrderInput :=
  { payment_method := "cash"
    delivery_method := "standard"
    delivery_address := "1 Main St"
    delivery_phone := "555"
    notes := none }

/-- A store with one customer and an empty cart. -/
def fxDbEmptyCart : DB :=
  { users := [{ id := 1, role := .customer, created_at := 0 }]
    categories := [1]
    products := [{ id := 1, name := "Aspirin", manufacturer := "Acme", price := 2,
                   stock_quantity := 5, category_id := 1, requires_prescription := false,
                   is_active := true, created_at := 0 }]
    prescriptions := []
    cartItems := []
    orders := []
    orderItems := [] }

/-- A store with one valid one-line cart, ready for a successful checkout. -/
def fxDbValidCart : DB :=
  { users := [{ id := 1, role := .customer, created_at := 0 }]
    categories := [1]
    products := [{ id := 1, name := "Aspirin", manufacturer := "Acme", price := 2,
                   stock_quantity := 5, category_id := 1, requires_prescription := false,
                   is_active := true, created_at := 0 }]
    prescriptions := []
    cartItems := [{ id := 1, user_id := 1, product_id := 1, quantity := 1,
                    prescription_id := none }]
    orders := []
    orderItems := [] }

/-- A store whose cart holds two lines for the same product, each within stock
but with their sum exceeding it (stock 3, quantities 2 and 2). -/
def fxDbDupLines : DB :=
  { users := [{ id := 1, role := .customer, created_at := 0 }]
    categories := [1]
    products := [{ id := 1, name := "Aspirin", manufacturer := "Acme", price := 2,
                   stock_quantity := 3, category_id := 1, requires_prescription := false,
                   is_active := true, created_at := 0 }]
    prescriptions := []
    cartItems := [{ id := 1, user_id := 1, product_id := 1, quantity := 2,
                    prescription_id := none },
                  { id := 2, user_id := 1, product_id := 1, quantity := 2,
                    prescription_id := none }]
    orders := []
    orderItems := [] }

/-- A store whose cart holds a line for a prescription-required product with no
prescription attached. -/
def fxDbNoPrescription : DB :=
  { users := [{ id := 1, role := .customer, created_at := 0 }]
    categories := [1]
    products := [{ id := 1, name := "Antibiotic", manufacturer := "Acme", price := 3,
                   stock_quantity := 50, category_id := 1, requires_prescription := true,
                   is_active := true, created_at := 0 }]
    prescriptions := []
    cartItems := [{ id := 1, user_id := 1, product_id := 1, quantity := 1,
                    prescription_id := none }]
    orders := []
    orderItems := [] }

/-- A store whose cart line carries a prescription that is still `pending`. -/
def fxDbPendingPrescription : DB :=
  { users := [{ id := 1, role := .customer, created_at := 0 }]
    categories := [1]
    products := [{ id := 1, name := "Antibiotic", manufacturer := "Acme", price := 3,
                   stock_quantity := 50, category_id := 1, requires_prescription := true,
                   is_active := true, created_at := 0 }]
    prescriptions := [{ id := 1, user_id := 1, status := .pending }]
    cartItems := [{ id := 1, user_id := 1, product_id := 1, quantity := 1,
                    prescription_id := some 1 }]
    orders := []
    orderItems := [] }

/-- The spec's example scenario: a product priced 15.99 with stock 100, and a
cart holding two lines of it with quantities 2 and 1. -/
def fxDbExample : DB :=
  { users := [{ id := 1, role := .customer, created_at := 0 }]
    categories := [1]
    products := [{ id := 1, name := "Product A", manufacturer := "Acme",
                   price := 1599/100, stock_quantity := 100, category_id := 1,
                   requires_prescription := false, is_active := true, created_at := 0 }]
    prescriptions := []
    cartItems := [{ id := 1, user_id := 1, product_id := 1, quantity := 2,
                    prescription_id := none },
                  { id := 2, user_id := 1, product_id := 1, quantity := 1,
                    prescription_id := none }]
    orders := []
    orderItems := [] }

/-- A store with one existing cart line of quantity 2 for product 1. -/
def fxDbOneLine : DB :=
  { users := [{ id := 1, role := .customer, created_at := 0 }]
    categories := [1]
    products := [{ id := 1, name := "Aspirin", manufacturer := "Acme", price := 2,
                   stock_quantity := 10, category_id := 1, requires_prescription := false,
                   is_active := true, created_at := 0 }]
    prescriptions := []
    cartItems := [{ id := 1, user_id := 1, product_id := 1, quantity := 2,
                    prescription_id := none }]
    orders := []
    orderItems := [] }

/-- A deactivated but otherwise orderable product. -/
def fxRetired : Product :=
  { id := 1, name := "Retired", manufacturer := "Acme", price := 2,
    stock_quantity := 10, category_id := 1, requires_prescription := false,
    is_active := false, created_at := 0 }

/-- A store whose only product is deactivated but otherwise orderable. -/
def fxDbInactive : DB :=
  { users := [{ id := 1, role := .customer, created_at := 0 }]
    categories := [1]
    products := [fxRetired]
    prescriptions := []
    cartItems := []
    orders := []
    orderItems := [] }

/-- A store with one customer, one admin, and one recent order placed by the
admin. -/
def fxDbAdminOrder : DB :=
  { users := [{ id := 1, role := .customer, created_at := 0 },
              { id := 2, role := .admin, created_at := 0 }]
    categories := []
    products := []
    prescriptions := []
    cartItems := []
    orders := [{ id := 1, user_id := 2, total_amount := 5, status := .pending,
                 payment_method := "cash", delivery_method := "standard",
                 delivery_address := "1 Main St", delivery_phone := "555",
                 notes := none, created_at := 0 }]
    orderItems := [] }

/-- A store with three customers of which exactly one placed a recent order. -/
def fxDbThreeCustomers : DB :=
  { users := [{ id := 1, role := .customer, created_at := 0 },
              { id := 2, role := .customer, created_at := 0 },
              { id := 3, role := .customer, created_at := 0 }]
    categories := []
    products := []
    prescriptions := []
    cartItems := []
    orders := [{ id := 1, user_id := 1, total_amount := 5, status := .pending,
                 payment_method := "cash", delivery_method := "standard",
                 delivery_address := "1 Main St", delivery_phone := "555",
                 notes := none, created_at := 0 }]
    orderItems := [] }

/-- An active catalog product. -/
def fxVisible : Product :=
  { id := 1, name := "Visible", manufacturer := "Acme", price := 2,
    stock_quantity := 5, category_id := 1, requires_prescription := false,
    is_active := true, created_at := 0 }

/-- A deactivated catalog product. -/
def fxHidden : Product :=
  { id := 2, name := "Hidden", manufacturer := "Acme", price := 3,
    stock_quantity := 5, category_id := 1, requires_prescription := false,
    is_active := false, created_at := 1 }

/-- A store holding one active and one inactive product. -/
def fxDbTwoProducts : DB :=
  { users := [{ id := 1, role := .customer, created_at := 0 }]
    categories := [1]
    products := [fxVisible, fxHidden]
    prescriptions := []
    cartItems := []
    orders := []
    orderItems := [] }

/-- A search input with no optional filter set and the default page. -/
def fxSearchAll : SearchInput :=
  { query := none
    category_id := none
    requires_prescription := none
    min_price := none
    max_price := none
    manufacturer := none
    limit := 20
    offset := 0 }

/-! ## Shared lemmas -/

theorem checkItem_ok_of {db : DB} {u : Nat} {items : List (CartItem × Product)}
    {x : CartItem × Product}
    (h1 : (aggQty items x.1.product_id : Int) ≤ x.2.stock_quantity)
    (h2 : x.2.requires_prescription = true → x.1.prescription_id.isSome = true)
    (h3 : ∀ rid, x.1.prescription_id = some rid → prescriptionValid db u rid = true) :
    checkItem db u items x = .ok () := by
  unfold checkItem
  rw [if_neg (not_lt.mpr h1)]
  rcases hp : x.1.prescription_id with _ | rid
  · have : x.2.requires_prescription = false := by
      by_contra hb
      have := h2 (by simpa using hb)
      rw [hp] at this
      simp [Option.isSome] at this
    simp [this, hp]
  · have hv := h3 rid hp
    have hns : (x.2.requires_prescription && x.1.prescription_id.isNone) = false := by
      simp [hp]
    rw [if_neg (by simp [hns])]
    simp [hp, hv]

theorem checkItem_stock_le_of_ok {db : DB} {u : Nat} {items : List (CartItem × Product)}
    {x : CartItem × Product} (h : checkItem db u items x = .ok ()) :
    (aggQty items x.1.product_id : Int) ≤ x.2.stock_quantity := by
  by_contra hgt
  rw [not_le] at hgt
  unfold checkItem at h
  rw [if_pos hgt] at h
  exact Except.noConfusion h

theorem checkItem_error_elim {db : DB} {u : Nat} {items : List (CartItem × Product)}
    {x : CartItem × Product} {e : OrderError} (h : checkItem db u items x = .error e) :
    (e = .insufficientStock ∧ (aggQty items x.1.product_id : Int) > x.2.stock_quantity) ∨
    (e = .prescriptionRequired ∧ x.2.requires_prescription = true ∧
      x.1.prescription_id = none) ∨
    (e = .invalidPrescription ∧ ∃ rid, x.1.prescription_id = some rid ∧
      prescriptionValid db u rid = false) := by
  unfold checkItem at h
  by_cases h1 : (aggQty items x.1.product_id : Int) > x.2.stock_quantity
  · rw [if_pos h1] at h
    exact Or.inl ⟨(Except.error.inj h).symm, h1⟩
  · rw [if_neg h1] at h
    by_cases h2 : (x.2.requires_prescription && x.1.prescription_id.isNone) = true
    · rw [if_pos h2] at h
      refine Or.inr (Or.inl ⟨(Except.error.inj h).symm, ?_, ?_⟩)
      · exact (Bool.and_eq_true_iff.mp h2).1
      · have := (Bool.and_eq_true_iff.mp h2).2
        rcases hp : x.1.prescription_id with _ | rid
        · rfl
        · rw [hp] at this
          simp [Option.isNone] at this
    · rw [if_neg h2] at h
      rcases hp : x.1.prescription_id with _ | rid
      · rw [hp] at h
        exact Except.noConfusion h
      · rw [hp] at h
        by_cases hv : prescriptionValid db u rid = true
        · rw [show (match some rid with
              | some rid =>
                if prescriptionValid db u rid = true then Except.ok ()
                else Except.error OrderError.invalidPrescription
              | none => (Except.ok () : Except OrderError Unit)) =
              if prescriptionValid db u rid = true then Except.ok ()
              else Except.error OrderError.invalidPrescription from rfl,
            if_pos hv] at h
          exact Except.noConfusion h
        · rw [show (match some rid with
              | some rid =>
                if prescriptionValid db u rid = true then Except.ok ()
                else Except.error OrderError.invalidPrescription
              | none => (Except.ok () : Except OrderError Unit)) =
              if prescriptionValid db u rid = true then Except.ok ()
              else Except.error OrderError.invalidPrescription from rfl,
            if_neg hv] at h
          refine Or.inr (Or.inr ⟨(Except.error.inj h).symm, rid, rfl, ?_⟩)
          simpa using hv

theorem validateItems_ok_iff {db : DB} {u : Nat} {items l : List (CartItem × Product)} :
    validateItems db u items l = .ok () ↔
      ∀ x ∈ l, checkItem db u items x = .ok () := by
  induction l with
  | nil => simp [validateItems]
  | cons x xs ih =>
    simp only [validateItems]
    rcases hc : checkItem db u items x with e | u0
    · constructor
      · intro h
        exact Except.noConfusion h
      · intro h
        have := h x (List.mem_cons_self x xs)
        rw [hc] at this
        exact Except.noConfusion this
    · cases u0
      simp only [List.mem_cons]
      constructor
      · intro h y hy
        rcases hy with rfl | hy
        · exact hc
        · exact ih.mp h y hy
      · intro h
        exact ih.mpr (fun y hy => h y (Or.inr hy))

theorem validateItems_error_mem {db : DB} {u : Nat} {items l : List (CartItem × Product)}
    {e : OrderError} (h : validateItems db u items l = .error e) :
    ∃ x ∈ l, checkItem db u items x = .error e := by
  induction l with
  | nil => exact absurd h (by simp [validateItems])
  | cons x xs ih =>
    simp only [validateItems] at h
    revert h
    rcases hc : checkItem db u items x with e0 | u0
    · intro h
      exact ⟨x, List.mem_cons_self x xs, hc.trans (congrArg Except.error
        (Except.error.inj h))⟩
    · cases u0
      intro h
      obtain ⟨y, hy, hcy⟩ := ih h
      exact ⟨y, List.mem_cons_of_mem x hy, hcy⟩

theorem createOrderRun_fst_of_error {db : DB} {u : Nat} {i : CreateOrderInput}
    {now : Int} {e : OrderError} (h : (createOrderRun db u i now).2 = .error e) :
    (createOrderRun db u i now).1 = db := by
  unfold createOrderRun at h ⊢
  by_cases hne : (joinedCart db u).isEmpty = true
  · rw [if_pos hne]
  · rw [if_neg hne] at h ⊢
    rcases hval : validateItems db u (joinedCart db u) (joinedCart db u) with e0 | u0
    · rfl
    · rw [hval] at h
      exact Except.noConfusion (show Except.ok (mkOrder db u i now) = Except.error e from h)

theorem createOrderRun_ok_elim {db : DB} {u : Nat} {i : CreateOrderInput}
    {now : Int} {ord : Order} (h : (createOrderRun db u i now).2 = .ok ord) :
    ord = mkOrder db u i now ∧
    (createOrderRun db u i now).1 = orderSuccessState db u i now ∧
    validateItems db u (joinedCart db u) (joinedCart db u) = .ok () ∧
    (joinedCart db u).isEmpty = false := by
  unfold createOrderRun at h ⊢
  by_cases hne : (joinedCart db u).isEmpty = true
  · rw [if_pos hne] at h
    exact Except.noConfusion h
  · rw [if_neg hne] at h ⊢
    rcases hval : validateItems db u (joinedCart db u) (joinedCart db u) with e0 | u0
    · rw [hval] at h
      exact Except.noConfusion (show Except.error e0 = Except.ok ord from h)
    · cases u0
      rw [hval] at h
      exact ⟨(Except.ok.inj
        (show Except.ok (mkOrder db u i now) = Except.ok ord from h)).symm,
        rfl, rfl, by simpa using hne⟩

theorem freshId_gt {ids : List Nat} {x : Nat} (h : x ∈ ids) : x < freshId ids := by
  unfold freshId
  have : x ≤ ids.foldr (fun x m => max x m) 0 := by
    induction ids with
    | nil => cases h
    | cons y ys ih =>
      rcases List.mem_cons.mp h with rfl | hy
      · exact le_max_left _ _
      · exact le_trans (ih hy) (le_max_right _ _)
  omega

theorem foldl_add_map_sum {α : Type} (f : α → ℚ) (l : List α) (a : ℚ) :
    l.foldl (fun s x => s + f x) a = a + (l.map f).sum := by
  induction l generalizing a with
  | nil => simp
  | cons x xs ih =>
    simp only [List.foldl_cons, List.map_cons, List.sum_cons]
    rw [ih]
    ring

theorem joinedCart_mem_elim {db : DB} {u : Nat} {x : CartItem × Product}
    (h : x ∈ joinedCart db u) :
    x.1 ∈ db.cartItems ∧ x.1.user_id = u ∧
    db.products.find? (fun p => decide (p.id = x.1.product_id)) = some x.2 := by
  unfold joinedCart at h
  obtain ⟨c, hc, hmap⟩ := List.mem_filterMap.mp h
  rcases hf : db.products.find? (fun p => decide (p.id = c.product_id)) with _ | p
  · rw [hf] at hmap
    exact Option.noConfusion hmap
  · rw [hf] at hmap
    obtain rfl : (c, p) = x := by simpa using hmap
    have hcmem := List.mem_filter.mp hc
    exact ⟨hcmem.1, by simpa using hcmem.2, hf⟩

theorem find?_eq_of_nodup_ids {l : List Product} {p : Product}
    (hnd : (l.map (fun q => q.id)).Nodup) (hp : p ∈ l) :
    l.find? (fun q => decide (q.id = p.id)) = some p := by
  induction l with
  | nil => cases hp
  | cons q qs ih =>
    rcases List.mem_cons.mp hp with rfl | hmem
    · simp [List.find?]
    · have hqid : q.id ≠ p.id := by
        intro he
        have : q.id ∈ qs.map (fun r => r.id) :=
          he ▸ List.mem_map.mpr ⟨p, hmem, rfl⟩
        exact (List.nodup_cons.mp hnd).1 this
      rw [List.find?]
      rw [show (decide (q.id = p.id)) = false by simp [hqid]]
      exact ih (List.nodup_cons.mp hnd).2 hmem

theorem aggQty_eq_zero_of_find?_none {items : List (CartItem × Product)} {pid : Nat}
    (h : items.find? (fun x => decide (x.1.product_id = pid)) = none) :
    aggQty items pid = 0 := by
  unfold aggQty
  have hall := List.find?_eq_none.mp h
  have : items.filter (fun x => decide (x.1.product_id = pid)) = [] := by
    rw [List.filter_eq_nil_iff]
    intro x hx
    exact hall x hx
  rw [this]
  simp

theorem decrementStocks_eq_map {db : DB} {u : Nat}
    (hnd : (db.products.map (fun q => q.id)).Nodup) :
    decrementStocks (joinedCart db u) db.products =
      db.products.map (fun p =>
        { p with stock_quantity :=
            p.stock_quantity - (aggQty (joinedCart db u) p.id : Int) }) := by
  unfold decrementStocks
  apply List.map_congr_left
  intro p hp
  rcases hf : (joinedCart db u).find? (fun x => decide (x.1.product_id = p.id)) with _ | x
  · rw [hf, aggQty_eq_zero_of_find?_none hf]
    simp
  · rw [hf]
    have hxmem := List.mem_of_find?_eq_some hf
    have hxpid : x.1.product_id = p.id := by
      have := List.find?_some hf
      simpa using this
    have hsnd := (joinedCart_mem_elim hxmem).2.2
    rw [hxpid] at hsnd
    rw [find?_eq_of_nodup_ids hnd hp] at hsnd
    obtain rfl : p = x.2 := Option.some.inj hsnd
    show ({ x.2 with stock_quantity :=
      x.2.stock_quantity - (aggQty (joinedCart db u) x.1.product_id : Int) } : Product) = _
    rw [hxpid]

theorem addToCartRun_products_eq (db : DB) (u : Nat) (i : AddToCartInput) :
    (addToCartRun db u i).1.products = db.products := by
  unfold addToCartRun
  split
  · rfl
  · split
    · rfl
    · split
      · rfl
      · split
        · rfl
        · split
          · rfl
          · split
            · split
              · rfl
              · rfl
            · rfl

theorem updateProductRun_other_tables (db : DB) (i : UpdateProductInput) :
    (updateProductRun db i).1.orders = db.orders ∧
    (updateProductRun db i).1.orderItems = db.orderItems := by
  unfold updateProductRun
  split
  · exact ⟨rfl, rfl⟩
  · split
    · exact ⟨rfl, rfl⟩
    · exact ⟨rfl, rfl⟩

theorem createOrderRun_fst_cases (db : DB) (u : Nat) (i : CreateOrderInput) (now : Int) :
    (createOrderRun db u i now).1 = db ∨
    ((createOrderRun db u i now).1 = orderSuccessState db u i now ∧
      validateItems db u (joinedCart db u) (joinedCart db u) = .ok ()) := by
  unfold createOrderRun
  by_cases hne : (joinedCart db u).isEmpty = true
  · rw [if_pos hne]
    exact Or.inl rfl
  · rw [if_neg hne]
    rcases hval : validateItems db u (joinedCart db u) (joinedCart db u) with e0 | u0
    · exact Or.inl rfl
    · cases u0
      exact Or.inr ⟨rfl, rfl⟩

theorem orderSuccessState_stock_nonneg {db : DB} {u : Nat} {i : CreateOrderInput}
    {now : Int} (h : ∀ p ∈ db.products, 0 ≤ p.stock_quantity)
    (hval : validateItems db u (joinedCart db u) (joinedCart db u) = .ok ()) :
    ∀ p ∈ (orderSuccessState db u i now).products, 0 ≤ p.stock_quantity := by
  intro p hp
  have hp2 : p ∈ decrementStocks (joinedCart db u) db.products := hp
  unfold decrementStocks at hp2
  obtain ⟨q, hq, rfl⟩ := List.mem_map.mp hp2
  rcases hf : (joinedCart db u).find? (fun x => decide (x.1.product_id = q.id)) with _ | x
  · rw [hf]
    exact h q hq
  · rw [hf]
    have hx := List.mem_of_find?_eq_some hf
    have hok := validateItems_ok_iff.mp hval x hx
    have hle := checkItem_stock_le_of_ok hok
    show 0 ≤ x.2.stock_quantity - (aggQty (joinedCart db u) x.1.product_id : Int)
    omega

/-! ## Claim theorems -/

/-- C1 (amended): every validation failure of `createOrder` — empty cart,
insufficient stock, missing or invalid prescription — happens before the
first write, so whenever `createOrder` returns an error the cart lines, stock
levels and order tables are exactly the pre-call ones, at every write index.
The original claim's further assertion, that a failure of the persistence or
decrement statements themselves also leaves the tables unchanged, does not
hold because the handler opens no transaction (see the counterexample). -/
theorem createOrder_validation_failure_atomic (db : DB) (u : Nat)
    (i : CreateOrderInput) (now : Int) (e : OrderError)
    (h : (createOrderRun db u i now).2 = .error e) :
    (createOrderRun db u i now).1 = db ∧
    ∀ n, createOrderAfterWrites db u i now n = db := by
  refine ⟨createOrderRun_fst_of_error h, ?_⟩
  intro n
  unfold createOrderRun at h
  unfold createOrderAfterWrites
  by_cases hne : (joinedCart db u).isEmpty = true
  · rw [if_pos hne]
  · rw [if_neg hne] at h ⊢
    rcases hval : validateItems db u (joinedCart db u) (joinedCart db u) with e0 | u0
    · rfl
    · rw [hval] at h
      exact absurd (show Except.ok (mkOrder db u i now) = Except.error e from h)
        (by simp)

/-- C1 witness: on a store with one customer and an empty cart, `createOrder`
fails and leaves the store untouched, also at write index 2. -/
theorem createOrder_validation_failure_atomic_witness :
    (createOrderRun fxDbEmptyCart 1 fxOrderInput 0).1 = fxDbEmptyCart ∧
    createOrderAfterWrites fxDbEmptyCart 1 fxOrderInput 0 2 = fxDbEmptyCart := by
  have h : (createOrderRun fxDbEmptyCart 1 fxOrderInput 0).2 = .error .emptyCart := rfl
  exact ⟨(createOrder_validation_failure_atomic fxDbEmptyCart 1 fxOrderInput 0 _ h).1,
    (createOrder_validation_failure_atomic fxDbEmptyCart 1 fxOrderInput 0 _ h).2 2⟩

/-- C1 counterexample: on a store whose one-line cart passes every validation,
the state after only the first write statement (the order insert) already has
a changed orders table; the handler opens no transaction and its catch block
rethrows without compensation, so a storage failure in the next write (the
order-line insert) leaves this changed state visible, contrary to the claim
that a failing persistence step leaves the order tables unchanged. -/
theorem createOrder_partial_write_not_atomic :
    (createOrderRun fxDbValidCart 1 fxOrderInput 0).2.isOk = true ∧
    (createOrderAfterWrites fxDbValidCart 1 fxOrderInput 0 1).orders.length = 1 ∧
    fxDbValidCart.orders.length = 0 ∧
    createOrderAfterWrites fxDbValidCart 1 fxOrderInput 0 1 ≠ fxDbValidCart := by
  refine ⟨rfl, rfl, rfl, fun heq => ?_⟩
  exact absurd (congrArg (fun d => d.orders.length) heq) (by decide)

/-- C2: from a store in which every product's stock is nonnegative, any
sequence of cart/order API calls (a failed call leaves the store unchanged)
keeps every product's stock nonnegative. -/
theorem stock_nonneg_invariant (db : DB) (ops : List StoreOp)
    (h : ∀ p ∈ db.products, 0 ≤ p.stock_quantity) :
    ∀ p ∈ (runOps db ops).products, 0 ≤ p.stock_quantity := by
  induction ops generalizing db with
  | nil => exact h
  | cons op ops ih =>
    refine ih (applyOp db op) ?_
    cases op with
    | addCart u i =>
      intro p hp
      rw [show applyOp db (.addCart u i) = (addToCartRun db u i).1 from rfl,
        addToCartRun_products_eq] at hp
      exact h p hp
    | placeOrder u i now =>
      rcases createOrderRun_fst_cases db u i now with hsame | ⟨hsucc, hval⟩
      · intro p hp
        rw [show applyOp db (.placeOrder u i now) = (createOrderRun db u i now).1
          from rfl, hsame] at hp
        exact h p hp
      · intro p hp
        rw [show applyOp db (.placeOrder u i now) = (createOrderRun db u i now).1
          from rfl, hsucc] at hp
        exact orderSuccessState_stock_nonneg h hval p hp

/-- C2 witness: adding two more units to the cart and checking out keeps the
concrete store's stocks nonnegative. -/
theorem stock_nonneg_invariant_witness :
    (runOps fxDbValidCart
      [.addCart 1 { product_id := 1, quantity := 2, prescription_id := none },
       .placeOrder 1 fxOrderInput 0]).products.all
      (fun p => decide (0 ≤ p.stock_quantity)) = true := by
  have h := stock_nonneg_invariant fxDbValidCart
    [.addCart 1 { product_id := 1, quantity := 2, prescription_id := none },
     .placeOrder 1 fxOrderInput 0]
    (by decide)
  rw [List.all_eq_true]
  intro p hp
  simpa using h p hp

/-- C3: if the user's joined cart holds two distinct lines of one product whose
individual quantities each fit in that product's stock but whose aggregated
quantity exceeds it, and every line satisfies its prescription requirements,
then `createOrder` fails with the insufficient-stock error: the stock check
runs on the per-product aggregate, not line by line. -/
theorem createOrder_aggregates_duplicate_lines (db : DB) (u : Nat)
    (i : CreateOrderInput) (now : Int) (x1 x2 : CartItem × Product)
    (h1 : x1 ∈ joinedCart db u) (h2 : x2 ∈ joinedCart db u)
    (hne : x1.1.id ≠ x2.1.id)
    (hsame : x1.1.product_id = x2.1.product_id)
    (hq1 : (x1.1.quantity : Int) ≤ x1.2.stock_quantity)
    (hq2 : (x2.1.quantity : Int) ≤ x2.2.stock_quantity)
    (hsum : (aggQty (joinedCart db u) x1.1.product_id : Int) > x1.2.stock_quantity)
    (hpresc : ∀ x ∈ joinedCart db u,
      Option.all (fun rid => prescriptionValid db u rid) x.1.prescription_id = true)
    (hreq : ∀ x ∈ joinedCart db u,
      x.2.requires_prescription = true → x.1.prescription_id.isSome = true) :
    (createOrderRun db u i now).2 = .error .insufficientStock := by
  have hnemp : ¬((joinedCart db u).isEmpty = true) := by
    cases hj : joinedCart db u with
    | nil => rw [hj] at h1; cases h1
    | cons a l => simp
  rcases hval : validateItems db u (joinedCart db u) (joinedCart db u) with e | u0
  · have he : e = .insufficientStock := by
      obtain ⟨y, hy, hcy⟩ := validateItems_error_mem hval
      rcases checkItem_error_elim hcy with ⟨he, _⟩ | ⟨he, hreqy, hnone⟩ |
        ⟨he, rid, hsome, hvf⟩
      · exact he
      · have := hreq y hy hreqy
        rw [hnone] at this
        simp at this
      · have := hpresc y hy
        rw [hsome] at this
        simp [Option.all] at this
        rw [this] at hvf
        cases hvf
    unfold createOrderRun
    rw [if_neg hnemp, hval, he]
  · cases u0
    have hok := validateItems_ok_iff.mp hval x1 h1
    exact absurd (checkItem_stock_le_of_ok hok) (not_le.mpr hsum)

/-- First joined cart row of `fxDbDupLines`. -/
def fxDupPair1 : CartItem × Product :=
  ({ id := 1, user_id := 1, product_id := 1, quantity := 2, prescription_id := none },
   { id := 1, name := "Aspirin", manufacturer := "Acme", price := 2,
     stock_quantity := 3, category_id := 1, requires_prescription := false,
     is_active := true, created_at := 0 })

/-- Second joined cart row of `fxDbDupLines`. -/
def fxDupPair2 : CartItem × Product :=
  ({ id := 2, user_id := 1, product_id := 1, quantity := 2, prescription_id := none },
   { id := 1, name := "Aspirin", manufacturer := "Acme", price := 2,
     stock_quantity := 3, category_id := 1, requires_prescription := false,
     is_active := true, created_at := 0 })

/-- C3 witness: a cart with two lines of quantity 2 for a product with stock 3
(each line within stock, the sum exceeding it) fails with insufficient
stock. -/
theorem createOrder_aggregates_duplicate_lines_witness :
    (createOrderRun fxDbDupLines 1 fxOrderInput 0).2 = .error .insufficientStock := by
  have hj : joinedCart fxDbDupLines 1 = [fxDupPair1, fxDupPair2] := rfl
  refine createOrder_aggregates_duplicate_lines fxDbDupLines 1 fxOrderInput 0
    fxDupPair1 fxDupPair2 ?_ ?_ (by decide) (by decide) (by decide) (by decide)
    ?_ ?_ ?_
  · rw [hj]
    exact List.mem_cons_self _ _
  · rw [hj]
    exact List.mem_cons_of_mem _ (List.mem_cons_self _ _)
  · show (aggQty (joinedCart fxDbDupLines 1) fxDupPair1.1.product_id : Int) >
      fxDupPair1.2.stock_quantity
    rw [hj]
    decide
  · intro x hx
    rw [hj] at hx
    rcases List.mem_cons.mp hx with rfl | hx
    · decide
    · rcases List.mem_cons.mp hx with rfl | hx
      · decide
      · cases hx
  · intro x hx
    rw [hj] at hx
    rcases List.mem_cons.mp hx with rfl | hx
    · decide
    · rcases List.mem_cons.mp hx with rfl | hx
      · decide
      · cases hx

theorem checkItem_presc_of_ok {db : DB} {u : Nat} {items : List (CartItem × Product)}
    {x : CartItem × Product} (h : checkItem db u items x = .ok ())
    (hreq : x.2.requires_prescription = true) : x.1.prescription_id.isSome = true := by
  by_contra hns
  have hnone : x.1.prescription_id = none := by
    cases hp : x.1.prescription_id
    · rfl
    · rw [hp] at hns
      simp at hns
  unfold checkItem at h
  by_cases h1 : (aggQty items x.1.product_id : Int) > x.2.stock_quantity
  · rw [if_pos h1] at h
    exact Except.noConfusion h
  · rw [if_neg h1, if_pos (by simp [hreq, hnone])] at h
    exact Except.noConfusion h

theorem checkItem_valid_of_ok {db : DB} {u : Nat} {items : List (CartItem × Product)}
    {x : CartItem × Product} (h : checkItem db u items x = .ok ()) :
    ∀ rid, x.1.prescription_id = some rid → prescriptionValid db u rid = true := by
  intro rid hp
  by_contra hv
  unfold checkItem at h
  by_cases h1 : (aggQty items x.1.product_id : Int) > x.2.stock_quantity
  · rw [if_pos h1] at h
    exact Except.noConfusion h
  · rw [if_neg h1] at h
    by_cases h2 : (x.2.requires_prescription && x.1.prescription_id.isNone) = true
    · rw [if_pos h2] at h
      exact Except.noConfusion h
    · rw [if_neg h2, hp] at h
      rw [show (match some rid with
          | some rid =>
            if prescriptionValid db u rid = true then Except.ok ()
            else Except.error OrderError.invalidPrescription
          | none => (Except.ok () : Except OrderError Unit)) =
          if prescriptionValid db u rid = true then Except.ok ()
          else Except.error OrderError.invalidPrescription from rfl,
        if_neg hv] at h
      exact Except.noConfusion h

/-- C4: on success the created order's `total_amount` equals the sum of
`quantity × unit_price` over exactly its own order lines, whose `unit_price`
is the product price at creation time; and a later `updateProduct` call — in
particular a price change — touches neither the orders nor the order-lines
table, so both the snapshot and the total stay frozen. -/
theorem order_total_is_line_sum_and_frozen (db : DB) (u : Nat)
    (i : CreateOrderInput) (now : Int) (ord : Order)
    (hfk : ∀ oi ∈ db.orderItems, oi.order_id ∈ db.orders.map (fun o => o.id))
    (hok : (createOrderRun db u i now).2 = .ok ord) :
    ord.total_amount =
      (((createOrderRun db u i now).1.orderItems.filter
        (fun oi => decide (oi.order_id = ord.id))).map
        (fun oi => oi.unit_price * (oi.quantity : ℚ))).sum ∧
    ∀ upd : UpdateProductInput,
      (updateProductRun (createOrderRun db u i now).1 upd).1.orderItems =
        (createOrderRun db u i now).1.orderItems ∧
      (updateProductRun (createOrderRun db u i now).1 upd).1.orders =
        (createOrderRun db u i now).1.orders := by
  obtain ⟨hord, hfst, hval, hnemp⟩ := createOrderRun_ok_elim hok
  subst hord
  constructor
  · rw [hfst]
    have hoid : (mkOrder db u i now).id = freshId (db.orders.map (fun o => o.id)) := rfl
    have hsucc : (orderSuccessState db u i now).orderItems =
        db.orderItems ++
          (joinedCart db u).map (mkOrderItem (mkOrder db u i now).id) := rfl
    rw [hsucc, List.filter_append]
    have h1 : db.orderItems.filter
        (fun oi => decide (oi.order_id = (mkOrder db u i now).id)) = [] := by
      rw [List.filter_eq_nil_iff]
      intro oi hoi
      have hlt := freshId_gt (hfk oi hoi)
      rw [hoid]
      simp only [decide_eq_true_eq]
      omega
    have h2 : ((joinedCart db u).map (mkOrderItem (mkOrder db u i now).id)).filter
        (fun oi => decide (oi.order_id = (mkOrder db u i now).id)) =
        (joinedCart db u).map (mkOrderItem (mkOrder db u i now).id) := by
      rw [List.filter_eq_self]
      intro a ha
      obtain ⟨x, hx, rfl⟩ := List.mem_map.mp ha
      simp [mkOrderItem]
    rw [h1, h2, List.nil_append, List.map_map]
    show cartTotal (joinedCart db u) = _
    unfold cartTotal
    rw [foldl_add_map_sum, zero_add]
    rfl
  · intro upd
    exact ⟨(updateProductRun_other_tables _ upd).2,
      (updateProductRun_other_tables _ upd).1⟩

/-- A price change for product 1, every other field left untouched. -/
def fxPriceUpdate : UpdateProductInput :=
  { id := 1, name := none, manufacturer := none, price := some 5,
    stock_quantity := none, category_id := none, requires_prescription := none,
    is_active := none }

/-- C4 witness: on the concrete one-line cart the created order's total equals
the sum over its lines, and a later price update leaves the order lines
untouched. -/
theorem order_total_is_line_sum_and_frozen_witness :
    (createOrderRun fxDbValidCart 1 fxOrderInput 0).2 =
      .ok (mkOrder fxDbValidCart 1 fxOrderInput 0) ∧
    (mkOrder fxDbValidCart 1 fxOrderInput 0).total_amount =
      (((createOrderRun fxDbValidCart 1 fxOrderInput 0).1.orderItems.filter
        (fun oi => decide (oi.order_id = (mkOrder fxDbValidCart 1 fxOrderInput 0).id))).map
        (fun oi => oi.unit_price * (oi.quantity : ℚ))).sum ∧
    (updateProductRun (createOrderRun fxDbValidCart 1 fxOrderInput 0).1
      fxPriceUpdate).1.orderItems =
      (createOrderRun fxDbValidCart 1 fxOrderInput 0).1.orderItems := by
  have hok : (createOrderRun fxDbValidCart 1 fxOrderInput 0).2 =
      .ok (mkOrder fxDbValidCart 1 fxOrderInput 0) := rfl
  have hfk : ∀ oi ∈ fxDbValidCart.orderItems,
      oi.order_id ∈ fxDbValidCart.orders.map (fun o => o.id) := by
    intro oi hoi
    cases hoi
  exact ⟨hok,
    (order_total_is_line_sum_and_frozen fxDbValidCart 1 fxOrderInput 0 _ hfk hok).1,
    ((order_total_is_line_sum_and_frozen fxDbValidCart 1 fxOrderInput 0 _ hfk hok).2
      fxPriceUpdate).1⟩

/-- C5: with sufficient stock everywhere, (a) if every attached prescription is
valid but some cart line of a prescription-required product has none attached,
`createOrder` fails with the prescription-required error; (b) if every line of
a prescription-required product has a prescription attached but some attached
prescription does not both belong to the user and have status verified (for
example a pending one), `createOrder` fails with the invalid-prescription
error. -/
theorem createOrder_prescription_failures :
    (∀ (db : DB) (u : Nat) (i : CreateOrderInput) (now : Int),
      (∀ x ∈ joinedCart db u,
        (aggQty (joinedCart db u) x.1.product_id : Int) ≤ x.2.stock_quantity) →
      (∀ x ∈ joinedCart db u,
        Option.all (fun rid => prescriptionValid db u rid) x.1.prescription_id = true) →
      (∃ x ∈ joinedCart db u,
        x.2.requires_prescription = true ∧ x.1.prescription_id = none) →
      (createOrderRun db u i now).2 = .error .prescriptionRequired) ∧
    (∀ (db : DB) (u : Nat) (i : CreateOrderInput) (now : Int),
      (∀ x ∈ joinedCart db u,
        (aggQty (joinedCart db u) x.1.product_id : Int) ≤ x.2.stock_quantity) →
      (∀ x ∈ joinedCart db u,
        x.2.requires_prescription = true → x.1.prescription_id.isSome = true) →
      (∃ x ∈ joinedCart db u,
        Option.all (fun rid => prescriptionValid db u rid) x.1.prescription_id = false) →
      (createOrderRun db u i now).2 = .error .invalidPrescription) := by
  constructor
  · intro db u i now hstock hvalid hex
    obtain ⟨x0, hx0, hreq0, hnone0⟩ := hex
    have hnemp : ¬((joinedCart db u).isEmpty = true) := by
      cases hj : joinedCart db u with
      | nil => rw [hj] at hx0; cases hx0
      | cons a l => simp
    rcases hval : validateItems db u (joinedCart db u) (joinedCart db u) with e | u0
    · have he : e = .prescriptionRequired := by
        obtain ⟨y, hy, hcy⟩ := validateItems_error_mem hval
        rcases checkItem_error_elim hcy with ⟨he, hgt⟩ | ⟨he, _, _⟩ |
          ⟨he, rid, hsome, hvf⟩
        · exact absurd (hstock y hy) (not_le.mpr hgt)
        · exact he
        · have := hvalid y hy
          rw [hsome] at this
          simp [Option.all] at this
          rw [this] at hvf
          cases hvf
      unfold createOrderRun
      rw [if_neg hnemp, hval, he]
    · cases u0
      have hok := validateItems_ok_iff.mp hval x0 hx0
      have := checkItem_presc_of_ok hok hreq0
      rw [hnone0] at this
      simp at this
  · intro db u i now hstock hattach hex
    obtain ⟨x0, hx0, hfail0⟩ := hex
    have hnemp : ¬((joinedCart db u).isEmpty = true) := by
      cases hj : joinedCart db u with
      | nil => rw [hj] at hx0; cases hx0
      | cons a l => simp
    rcases hval : validateItems db u (joinedCart db u) (joinedCart db u) with e | u0
    · have he : e = .invalidPrescription := by
        obtain ⟨y, hy, hcy⟩ := validateItems_error_mem hval
        rcases checkItem_error_elim hcy with ⟨he, hgt⟩ | ⟨he, hreqy, hnoney⟩ |
          ⟨he, rid, hsome, hvf⟩
        · exact absurd (hstock y hy) (not_le.mpr hgt)
        · have := hattach y hy hreqy
          rw [hnoney] at this
          simp at this
        · exact he
      unfold createOrderRun
      rw [if_neg hnemp, hval, he]
    · cases u0
      have hok := validateItems_ok_iff.mp hval x0 hx0
      rcases hp : x0.1.prescription_id with _ | rid
      · rw [hp] at hfail0
        simp [Option.all] at hfail0
      · have := checkItem_valid_of_ok hok rid hp
        rw [hp] at hfail0
        simp [Option.all] at hfail0
        rw [this] at hfail0
        cases hfail0

/-- C5 witness: a prescription-required product with no prescription attached
fails with the prescription-required error, and the same cart line with a
pending prescription attached fails with the invalid-prescription error. -/
theorem createOrder_prescription_failures_witness :
    (createOrderRun fxDbNoPrescription 1 fxOrderInput 0).2 =
      .error .prescriptionRequired ∧
    (createOrderRun fxDbPendingPrescription 1 fxOrderInput 0).2 =
      .error .invalidPrescription := by
  constructor
  · exact createOrder_prescription_failures.1 fxDbNoPrescription 1 fxOrderInput 0
      (by decide) (by decide) (by decide)
  · exact createOrder_prescription_failures.2 fxDbPendingPrescription 1 fxOrderInput 0
      (by decide) (by decide) (by decide)

/-- C6: on success `createOrder` appends exactly one order (with status
`pending`), appends one order line per cart line, rewrites each product's
stock to its old stock minus that product's aggregated requested quantity
(zero, hence no change, for products without a cart line — one decrement per
distinct product, not per line), and deletes exactly the user's cart lines. -/
theorem createOrder_success_effects (db : DB) (u : Nat) (i : CreateOrderInput)
    (now : Int) (ord : Order)
    (hnd : (db.products.map (fun q => q.id)).Nodup)
    (hok : (createOrderRun db u i now).2 = .ok ord) :
    (createOrderRun db u i now).1.orders = db.orders ++ [ord] ∧
    ord.status = .pending ∧
    (createOrderRun db u i now).1.orderItems =
      db.orderItems ++ (joinedCart db u).map (mkOrderItem ord.id) ∧
    (createOrderRun db u i now).1.products = db.products.map (fun p =>
      { p with stock_quantity :=
          p.stock_quantity - (aggQty (joinedCart db u) p.id : Int) }) ∧
    (createOrderRun db u i now).1.cartItems =
      db.cartItems.filter (fun c => decide (c.user_id ≠ u)) := by
  obtain ⟨hord, hfst, hval, hnemp⟩ := createOrderRun_ok_elim hok
  subst hord
  rw [hfst]
  exact ⟨rfl, rfl, rfl, decrementStocks_eq_map hnd, rfl⟩

/-- First joined cart row of `fxDbExample`. -/
def fxExPair1 : CartItem × Product :=
  ({ id := 1, user_id := 1, product_id := 1, quantity := 2, prescription_id := none },
   { id := 1, name := "Product A", manufacturer := "Acme", price := 1599/100,
     stock_quantity := 100, category_id := 1, requires_prescription := false,
     is_active := true, created_at := 0 })

/-- Second joined cart row of `fxDbExample`. -/
def fxExPair2 : CartItem × Product :=
  ({ id := 2, user_id := 1, product_id := 1, quantity := 1, prescription_id := none },
   { id := 1, name := "Product A", manufacturer := "Acme", price := 1599/100,
     stock_quantity := 100, category_id := 1, requires_prescription := false,
     is_active := true, created_at := 0 })

/-- C6 witness: the spec's example — 15.99 product, stock 100, cart quantities
2 and 1 — yields a pending order with total 47.97, stock 97, an empty cart,
one order row and two order lines. -/
theorem createOrder_success_effects_witness :
    (createOrderRun fxDbExample 1 fxOrderInput 0).2 =
      .ok (mkOrder fxDbExample 1 fxOrderInput 0) ∧
    (mkOrder fxDbExample 1 fxOrderInput 0).total_amount = 4797/100 ∧
    (mkOrder fxDbExample 1 fxOrderInput 0).status = .pending ∧
    (createOrderRun fxDbExample 1 fxOrderInput 0).1.orders.length = 1 ∧
    (createOrderRun fxDbExample 1 fxOrderInput 0).1.orderItems.length = 2 ∧
    (createOrderRun fxDbExample 1 fxOrderInput 0).1.products.map
      (fun p => p.stock_quantity) = [97] ∧
    (createOrderRun fxDbExample 1 fxOrderInput 0).1.cartItems = [] := by
  have hok : (createOrderRun fxDbExample 1 fxOrderInput 0).2 =
      .ok (mkOrder fxDbExample 1 fxOrderInput 0) := rfl
  have hnd : (fxDbExample.products.map (fun q => q.id)).Nodup := by decide
  obtain ⟨h1, h2, h3, h4, h5⟩ :=
    createOrder_success_effects fxDbExample 1 fxOrderInput 0 _ hnd hok
  refine ⟨hok, ?_, h2, ?_, ?_, ?_, ?_⟩
  · show cartTotal (joinedCart fxDbExample 1) = 4797/100
    have hj : joinedCart fxDbExample 1 = [fxExPair1, fxExPair2] := rfl
    rw [hj]
    simp [cartTotal, List.foldl, fxExPair1, fxExPair2]
    norm_num
  · rw [h1]
    decide
  · rw [h3]
    decide
  · rw [h4]
    decide
  · rw [h5]
    decide

theorem addToCartRun_cases (db : DB) (u : Nat) (i : AddToCartInput) :
    ((addToCartRun db u i).1 = db ∧ ∃ e, (addToCartRun db u i).2 = .error e) ∨
    (∃ ex, db.cartItems.find? (fun c => decide (c.user_id = u) &&
        decide (c.product_id = i.product_id)) = some ex ∧
      (addToCartRun db u i).1 = { db with cartItems := db.cartItems.map (fun c =>
        if c.id = ex.id then { c with quantity := ex.quantity + i.quantity } else c) } ∧
      (addToCartRun db u i).2 = .ok { ex with quantity := ex.quantity + i.quantity }) ∨
    (db.cartItems.find? (fun c => decide (c.user_id = u) &&
        decide (c.product_id = i.product_id)) = none ∧
      (addToCartRun db u i).1 =
        { db with cartItems := db.cartItems ++ [newCartItem db u i] } ∧
      (addToCartRun db u i).2 = .ok (newCartItem db u i)) := by
  unfold addToCartRun
  split
  · exact Or.inl ⟨rfl, _, rfl⟩
  · split
    · exact Or.inl ⟨rfl, _, rfl⟩
    · split
      · exact Or.inl ⟨rfl, _, rfl⟩
      · split
        · exact Or.inl ⟨rfl, _, rfl⟩
        · split
          · exact Or.inl ⟨rfl, _, rfl⟩
          · split
            · next ex hfind =>
              split
              · exact Or.inl ⟨rfl, _, rfl⟩
              · exact Or.inr (Or.inl ⟨ex, hfind, rfl, rfl⟩)
            · next hfind =>
              exact Or.inr (Or.inr ⟨hfind, rfl, rfl⟩)

theorem pairCount_addToCart_le (db : DB) (u : Nat) (i : AddToCartInput)
    (h : ∀ u0 pid, pairCount db u0 pid ≤ 1) :
    ∀ u0 pid, pairCount (addToCartRun db u i).1 u0 pid ≤ 1 := by
  intro u0 pid
  rcases addToCartRun_cases db u i with ⟨h1, _⟩ | ⟨ex, hfind, h1, _⟩ | ⟨hfind, h1, _⟩
  · rw [h1]
    exact h u0 pid
  · rw [h1]
    show List.countP _ (db.cartItems.map _) ≤ 1
    rw [List.countP_map]
    have hc : List.countP
        ((fun c => decide (c.user_id = u0) && decide (c.product_id = pid)) ∘
          (fun c => if c.id = ex.id then
            { c with quantity := ex.quantity + i.quantity } else c))
        db.cartItems =
        List.countP (fun c => decide (c.user_id = u0) && decide (c.product_id = pid))
          db.cartItems := by
      apply List.countP_congr
      intro c _
      by_cases hid : c.id = ex.id <;> simp [Function.comp, hid]
    rw [hc]
    exact h u0 pid
  · rw [h1]
    show List.countP _ (db.cartItems ++ [newCartItem db u i]) ≤ 1
    rw [List.countP_append]
    by_cases hp : ((fun c => decide (c.user_id = u0) && decide (c.product_id = pid))
        (newCartItem db u i)) = true
    · have hup : u = u0 ∧ i.product_id = pid := by
        simpa [newCartItem] using hp
      obtain ⟨rfl, rfl⟩ := hup
      have hzero : List.countP
          (fun c => decide (c.user_id = u) && decide (c.product_id = i.product_id))
          db.cartItems = 0 := by
        rw [List.countP_eq_zero]
        exact List.find?_eq_none.mp hfind
      rw [hzero, Nat.zero_add]
      exact le_trans (List.countP_le_length _) (by simp)
    · have h0 : List.countP
          (fun c => decide (c.user_id = u0) && decide (c.product_id = pid))
          [newCartItem db u i] = 0 := by
        rw [List.countP_eq_zero]
        intro a ha
        rw [List.mem_singleton] at ha
        subst ha
        exact fun hx => hp hx
      rw [h0, Nat.add_zero]
      exact h u0 pid

theorem pairCount_placeOrder_le (db : DB) (u : Nat) (i : CreateOrderInput) (now : Int)
    (h : ∀ u0 pid, pairCount db u0 pid ≤ 1) :
    ∀ u0 pid, pairCount (createOrderRun db u i now).1 u0 pid ≤ 1 := by
  intro u0 pid
  rcases createOrderRun_fst_cases db u i now with h1 | ⟨h1, _⟩
  · rw [h1]
    exact h u0 pid
  · rw [h1]
    show List.countP _ (db.cartItems.filter _) ≤ 1
    rw [List.countP_filter]
    exact le_trans
      (List.countP_mono_left (fun x _ hx => (Bool.and_eq_true_iff.mp hx).1))
      (h u0 pid)

/-- C7: (a) when a cart row for the `(user, product)` pair already exists, a
successful `addToCart` rewrites that row's quantity to the old quantity plus
the requested one and inserts nothing; (b) starting from a store with at most
one cart row per `(user, product)` pair, any sequence of cart/order API calls
keeps every pair's row count at most one. -/
theorem addToCart_increments_existing_line :
    (∀ (db : DB) (u : Nat) (i : AddToCartInput) (ex item : CartItem),
      db.cartItems.find? (fun c => decide (c.user_id = u) &&
        decide (c.product_id = i.product_id)) = some ex →
      (addToCartRun db u i).2 = .ok item →
      (addToCartRun db u i).1.cartItems = db.cartItems.map (fun c =>
        if c.id = ex.id then { c with quantity := ex.quantity + i.quantity } else c) ∧
      item = { ex with quantity := ex.quantity + i.quantity }) ∧
    (∀ (db : DB) (ops : List StoreOp),
      (∀ u0 pid, pairCount db u0 pid ≤ 1) →
      ∀ u0 pid, pairCount (runOps db ops) u0 pid ≤ 1) := by
  constructor
  · intro db u i ex item hfind hok
    rcases addToCartRun_cases db u i with ⟨_, e, h2⟩ | ⟨ex2, hfind2, h1, h2⟩ |
      ⟨hfind2, _, _⟩
    · exact Except.noConfusion (h2.symm.trans hok)
    · obtain rfl : ex2 = ex := by
        rw [hfind2] at hfind
        exact Option.some.inj hfind
      exact ⟨by rw [h1], (Except.ok.inj (hok.symm.trans h2))⟩
    · rw [hfind2] at hfind
      exact Option.noConfusion hfind
  · intro db ops
    induction ops generalizing db with
    | nil => exact fun h => h
    | cons op ops ih =>
      intro h
      refine ih (applyOp db op) ?_
      cases op with
      | addCart u i => exact pairCount_addToCart_le db u i h
      | placeOrder u i now => exact pairCount_placeOrder_le db u i now h

/-- C7 witness: adding one more unit of product 1 rewrites the existing row to
quantity 3 instead of appending a second row, and the pair count stays at most
one. -/
theorem addToCart_increments_existing_line_witness :
    (addToCartRun fxDbOneLine 1
      { product_id := 1, quantity := 1, prescription_id := none }).1.cartItems =
      [{ id := 1, user_id := 1, product_id := 1, quantity := 3,
         prescription_id := none }] ∧
    pairCount (runOps fxDbOneLine
      [.addCart 1 { product_id := 1, quantity := 1, prescription_id := none }]) 1 1 ≤ 1 := by
  constructor
  · have h := (addToCart_increments_existing_line.1 fxDbOneLine 1
      { product_id := 1, quantity := 1, prescription_id := none }
      { id := 1, user_id := 1, product_id := 1, quantity := 2, prescription_id := none }
      { id := 1, user_id := 1, product_id := 1, quantity := 3, prescription_id := none }
      rfl rfl).1
    rw [h]
    rfl
  · refine addToCart_increments_existing_line.2 fxDbOneLine _ ?_ 1 1
    intro u0 pid
    exact le_trans (List.countP_le_length _) (by decide)

/-- C8 counterexample: the only product of the store is inactive, yet
`addToCart` succeeds on it, contradicting the claim that an inactive product
can never be added to a cart. -/
theorem addToCart_inactive_product_succeeds :
    (∃ p ∈ fxDbInactive.products, p.id = 1 ∧ p.is_active = false) ∧
    (addToCartRun fxDbInactive 1
      { product_id := 1, quantity := 1, prescription_id := none }).2.isOk = true := by
  exact ⟨⟨fxRetired, List.mem_cons_self _ _, rfl, rfl⟩, rfl⟩

/-- The same store with every product row deactivated. -/
def deactivateAll (db : DB) : DB :=
  { db with products := db.products.map (fun p => { p with is_active := false }) }

theorem addToCartRun_snd_congr (db db2 : DB) (u : Nat) (i : AddToCartInput)
    (hu : db2.users = db.users) (hc : db2.cartItems = db.cartItems)
    (hpr : db2.prescriptions = db.prescriptions)
    (hfind : Option.map (fun p => (p.requires_prescription, p.stock_quantity))
        (db2.products.find? (fun p => decide (p.id = i.product_id))) =
      Option.map (fun p => (p.requires_prescription, p.stock_quantity))
        (db.products.find? (fun p => decide (p.id = i.product_id)))) :
    (addToCartRun db2 u i).2 = (addToCartRun db u i).2 := by
  unfold addToCartRun
  have hnew : newCartItem db2 u i = newCartItem db u i := by
    unfold newCartItem
    rw [hc]
  rw [hu, hc, hpr, hnew]
  by_cases hue : (!(db.users.any (fun u0 => decide (u0.id = u)))) = true
  · rw [if_pos hue, if_pos hue]
  · rw [if_neg hue, if_neg hue]
    rcases hf2 : db2.products.find? (fun p => decide (p.id = i.product_id)) with _ | q2 <;>
      rcases hf : db.products.find? (fun p => decide (p.id = i.product_id)) with _ | q
    · rw [hf2, hf]
    · rw [hf2, hf] at hfind
      exact absurd hfind (by simp)
    · rw [hf2, hf] at hfind
      exact absurd hfind (by simp)
    · rw [hf2, hf] at hfind
      have hpair := Option.some.inj hfind
      have hreq : q2.requires_prescription = q.requires_prescription :=
        congrArg Prod.fst hpair
      have hst : q2.stock_quantity = q.stock_quantity := congrArg Prod.snd hpair
      rw [hf2, hf]
      dsimp only
      rw [hreq, hst]
      by_cases h3 : (q.requires_prescription && i.prescription_id.isNone) = true
      · rw [if_pos h3, if_pos h3]
      · rw [if_neg h3, if_neg h3]
        by_cases h4 : (match i.prescription_id with
            | some rid => !(db.prescriptions.any (fun pr =>
                decide (pr.id = rid) && decide (pr.user_id = u)))
            | none => false) = true
        · rw [if_pos h4, if_pos h4]
        · rw [if_neg h4, if_neg h4]
          by_cases h5 : q.stock_quantity < (i.quantity : Int)
          · rw [if_pos h5, if_pos h5]
          · rw [if_neg h5, if_neg h5]
            rcases hfc : db.cartItems.find? (fun c =>
                decide (c.user_id = u) && decide (c.product_id = i.product_id)) with _ | ex
            · rw [hfc]
            · rw [hfc]
              dsimp only
              by_cases h6 : q.stock_quantity < ((ex.quantity + i.quantity : Nat) : Int)
              · rw [if_pos h6, if_pos h6]
              · rw [if_neg h6, if_neg h6]

/-- C8 (amended): `addToCart` fails with the product-not-found error whenever
no product row matches the requested id, but the `is_active` flag is never
read: deactivating every product does not change the call's outcome, so an
inactive product can be added to a cart. -/
theorem addToCart_missing_product_fails_active_unread :
    (∀ (db : DB) (u : Nat) (i : AddToCartInput),
      db.users.any (fun u0 => decide (u0.id = u)) = true →
      db.products.find? (fun p => decide (p.id = i.product_id)) = none →
      (addToCartRun db u i).2 = .error .productNotFound) ∧
    (∀ (db : DB) (u : Nat) (i : AddToCartInput),
      (addToCartRun (deactivateAll db) u i).2 = (addToCartRun db u i).2) := by
  constructor
  · intro db u i huser hnone
    unfold addToCartRun
    rw [if_neg (by simp [huser]), hnone]
  · intro db u i
    apply addToCartRun_snd_congr db (deactivateAll db) u i rfl rfl rfl
    show Option.map _ ((db.products.map (fun p => { p with is_active := false })).find?
      (fun p => decide (p.id = i.product_id))) = _
    rw [List.find?_map]
    rw [show ((fun p => decide (p.id = i.product_id)) ∘
        (fun p => ({ p with is_active := false } : Product))) =
        (fun p : Product => decide (p.id = i.product_id)) from rfl]
    rw [Option.map_map]
    rfl

/-- C8 witness: a lookup of an absent product id fails with product-not-found,
and deactivating the catalog leaves the concrete `addToCart` outcome
unchanged. -/
theorem addToCart_missing_product_fails_active_unread_witness :
    (addToCartRun fxDbEmptyCart 1
      { product_id := 99, quantity := 1, prescription_id := none }).2 =
      .error .productNotFound ∧
    (addToCartRun (deactivateAll fxDbValidCart) 1
      { product_id := 1, quantity := 1, prescription_id := none }).2 =
    (addToCartRun fxDbValidCart 1
      { product_id := 1, quantity := 1, prescription_id := none }).2 :=
  ⟨addToCart_missing_product_fails_active_unread.1 fxDbEmptyCart 1
      { product_id := 99, quantity := 1, prescription_id := none } rfl rfl,
    addToCart_missing_product_fails_active_unread.2 fxDbValidCart 1
      { product_id := 1, quantity := 1, prescription_id := none }⟩

theorem jsRound_eq {q : ℚ} {n : ℤ} (h1 : (n : ℚ) ≤ q + 1/2) (h2 : q + 1/2 < n + 1) :
    jsRound q = n := by
  unfold jsRound
  rw [Int.floor_eq_iff]
  exact ⟨h1, h2⟩

/-- C9 counterexample: with one customer who never ordered and one admin with
a recent order, the handler reports a retention rate of 100, while the rate
the claim describes — restricted to customer-role users — is 0: the active
count has no role filter. -/
theorem retention_counts_noncustomer_orders :
    (getCustomerReport fxDbAdminOrder 0 (-10)).customer_retention_rate = 100 ∧
    specRetentionRate fxDbAdminOrder (-10) = 0 := by
  constructor
  · show (jsRound (retentionRate fxDbAdminOrder (-10) * 100) : ℚ) / 100 = 100
    have hr : retentionRate fxDbAdminOrder (-10) = 100 := by
      unfold retentionRate
      rw [if_pos (by decide),
        show totalCustomerCount fxDbAdminOrder = 1 from rfl,
        show activeCustomerCount fxDbAdminOrder (-10) = 1 from rfl]
      norm_num
    rw [hr, jsRound_eq (n := 10000) (by norm_num) (by norm_num)]
    norm_num
  · unfold specRetentionRate
    rw [if_pos (by decide)]
    rw [show (fxDbAdminOrder.users.filter (fun u =>
        decide (u.role = Role.customer) &&
        fxDbAdminOrder.orders.any (fun o => decide (o.user_id = u.id) &&
          decide ((-10 : Int) ≤ o.created_at)))).length = 0 from rfl]
    rw [show ((((0 : Nat) : ℚ)) / ((fxDbAdminOrder.users.filter (fun u =>
        decide (u.role = Role.customer))).length : ℚ)) * 100 * 100 = 0 by norm_num]
    rw [jsRound_eq (n := 0) (by norm_num) (by norm_num)]
    norm_num

/-- C9 (amended): the retention rate is `Math.round(active / total × 100 ×
100) / 100` where `total` counts customer-role users but `active` counts the
distinct users of any role with an order in the trailing window; with 1 active
user out of 3 customers the rate is 33.33. -/
theorem retention_rate_formula (db : DB) (s t : Int)
    (h : 0 < totalCustomerCount db) :
    (getCustomerReport db s t).customer_retention_rate =
      (jsRound (((activeCustomerCount db t : ℚ) / (totalCustomerCount db : ℚ)) *
        100 * 100) : ℚ) / 100 ∧
    (totalCustomerCount db = 3 → activeCustomerCount db t = 1 →
      (getCustomerReport db s t).customer_retention_rate = 3333/100) := by
  constructor
  · show (jsRound (retentionRate db t * 100) : ℚ) / 100 = _
    unfold retentionRate
    rw [if_pos h]
  · intro h3 h1
    show (jsRound (retentionRate db t * 100) : ℚ) / 100 = 3333/100
    unfold retentionRate
    rw [if_pos h, h3, h1]
    rw [show (((1 : Nat) : ℚ) / ((3 : Nat) : ℚ)) * 100 * 100 = 10000/3 by norm_num]
    rw [jsRound_eq (n := 3333) (by norm_num) (by norm_num)]
    norm_num

/-- C9 witness: three customers of which one ordered recently give a reported
retention rate of 33.33. -/
theorem retention_rate_formula_witness :
    (getCustomerReport fxDbThreeCustomers 0 (-10)).customer_retention_rate =
      3333/100 :=
  (retention_rate_formula fxDbThreeCustomers 0 (-10) (by decide)).2 rfl rfl

theorem mem_insertByCreatedDesc {a p : Product} {l : List Product} :
    a ∈ insertByCreatedDesc p l ↔ a = p ∨ a ∈ l := by
  induction l with
  | nil => simp [insertByCreatedDesc]
  | cons q qs ih =>
    unfold insertByCreatedDesc
    by_cases hle : q.created_at ≤ p.created_at
    · rw [if_pos hle]
      simp [List.mem_cons]
    · rw [if_neg hle]
      simp only [List.mem_cons, ih]
      tauto

theorem mem_sortByCreatedDesc {a : Product} {l : List Product} :
    a ∈ sortByCreatedDesc l ↔ a ∈ l := by
  induction l with
  | nil => simp [sortByCreatedDesc]
  | cons p ps ih =>
    show a ∈ insertByCreatedDesc p (sortByCreatedDesc ps) ↔ _
    rw [mem_insertByCreatedDesc, ih]
    simp [List.mem_cons]

/-- C10: every product read path hides inactive rows — a product returned by
`getProducts` is active; `getProductById` returns `null` for an inactive
product even when its row exists; and `searchProducts` returns only active
products in the page while its total counts only the active rows among those
matching the optional filters, whatever those filters are. -/
theorem read_paths_only_active :
    (∀ (db : DB) (p : Product), p ∈ getProducts db → p.is_active = true) ∧
    (∀ (db : DB) (id : Nat) (p : Product),
      (db.products.map (fun q => q.id)).Nodup → p ∈ db.products → p.id = id →
      p.is_active = false → getProductById db id = none) ∧
    (∀ (db : DB) (i : SearchInput) (p : Product),
      p ∈ (searchProducts db i).1 → p.is_active = true) ∧
    (∀ (db : DB) (i : SearchInput),
      (searchProducts db i).2 =
        ((db.products.filter (searchConds i)).filter (fun p => p.is_active)).length) := by
  refine ⟨?_, ?_, ?_, ?_⟩
  · intro db p hp
    have := mem_sortByCreatedDesc.mp hp
    exact (List.mem_filter.mp this).2
  · intro db id p hnd hp hpid hpact
    unfold getProductById
    rw [List.find?_eq_none]
    intro q hq hqtrue
    rw [Bool.and_eq_true] at hqtrue
    have hqid : q.id = id := by simpa using hqtrue.1
    have : q = p := List.inj_on_of_nodup_map hnd hq hp (by rw [hqid, hpid])
    rw [this, hpact] at hqtrue
    exact Bool.noConfusion hqtrue.2
  · intro db i p hp
    have h1 : p ∈ sortByCreatedDesc (db.products.filter (searchWhere i)) :=
      List.drop_subset _ _ (List.take_subset _ _ hp)
    have h2 := mem_sortByCreatedDesc.mp h1
    have h3 := (List.mem_filter.mp h2).2
    exact (Bool.and_eq_true_iff.mp h3).1
  · intro db i
    show (db.products.filter (searchWhere i)).length = _
    rw [List.filter_filter]
    rfl

/-- C10 witness: with one active and one inactive product, `getProducts` and
`searchProducts` return only the active one, `getProductById` returns `null`
for the inactive one, and the search total is 1. -/
theorem read_paths_only_active_witness :
    (fxVisible ∈ getProducts fxDbTwoProducts ∧ fxVisible.is_active = true) ∧
    getProductById fxDbTwoProducts 2 = none ∧
    (fxVisible ∈ (searchProducts fxDbTwoProducts fxSearchAll).1 ∧
      fxVisible.is_active = true) ∧
    (searchProducts fxDbTwoProducts fxSearchAll).2 = 1 := by
  have hmem : fxVisible ∈ getProducts fxDbTwoProducts := by
    rw [show getProducts fxDbTwoProducts = [fxVisible] from rfl]
    exact List.mem_cons_self _ _
  have hmem2 : fxVisible ∈ (searchProducts fxDbTwoProducts fxSearchAll).1 := by
    rw [show (searchProducts fxDbTwoProducts fxSearchAll).1 = [fxVisible] from rfl]
    exact List.mem_cons_self _ _
  refine ⟨⟨hmem, read_paths_only_active.1 fxDbTwoProducts fxVisible hmem⟩,
    read_paths_only_active.2.1 fxDbTwoProducts 2 fxHidden (by decide) ?_ rfl rfl,
    ⟨hmem2, read_paths_only_active.2.2.1 fxDbTwoProducts fxSearchAll fxVisible hmem2⟩,
    ?_⟩
  · rw [show fxDbTwoProducts.products = [fxVisible, fxHidden] from rfl]
    exact List.mem_cons_of_mem _ (List.mem_cons_self _ _)
  · rw [read_paths_only_active.2.2.2 fxDbTwoProducts fxSearchAll]
    rfl

end Pharma
